import Mathlib

/-
  Verification development for the WPPConnect webhook message-aggregation
  service (`main.py`, `app/agent/utils/graph_utils.py`).

  The service runs on a single-threaded cooperative event loop: each atomic
  segment of code between two `await` suspension points executes without
  preemption.  We embed the shared mutable state (`message_buffers`,
  `processing_tasks`) as a record, and the atomic segments as pure state
  transformers:

  * `webhook_accept`        - the buffer/task segment of `webhook_handler`
                              (main.py lines 184-210), executed after any
                              transcription await has resumed;
  * `process_aggregated_wake`   - the segment of `process_aggregated_messages`
                              that runs when `asyncio.sleep(WAIT_TIME)`
                              returns (main.py lines 78-99), up to the
                              `await main(...)` suspension;
  * `process_aggregated_finish` - the resumption after the agent call
                              returns or raises (main.py lines 101-121).

  An interleaved execution of the service is a sequence of `Event`s fed to
  `step`; `Reachable` is the set of states the running process can be in.
-/

namespace WhatsAppAgg

abbrev SenderId := String

/-- A record of one agent invocation performed by the dispatch path:
`main(phone_number, combined_message)` at main.py line 99, tagged with the
sender id the dispatch was for. -/
structure Dispatch where
  sender : SenderId
  phone : String
  text : String
deriving Repr, DecidableEq

/-- The shared mutable state of the process, plus the scheduler bookkeeping
needed to replay interleavings.

* `buffers`  - `message_buffers = defaultdict(list)` (main.py line 24): every
  sender id maps to a list of pending texts, defaulting to `[]`.
* `tasks`    - `processing_tasks = {}` (main.py line 25): the dict from sender
  id to the task created for its window, as an association list.
* `sleeping` - task ids created by `asyncio.create_task` whose
  `asyncio.sleep(WAIT_TIME)` has not yet returned, with their sender.
* `awaitingAgent` - task ids suspended inside `await main(...)`.
* `dispatches` - ghost trace of agent invocations, in order.
* `nextTid`  - fresh task-id source. -/
@[ext]
structure SysState where
  buffers : SenderId → List String
  tasks : List (SenderId × Nat)
  sleeping : List (Nat × SenderId)
  awaitingAgent : List (Nat × SenderId)
  dispatches : List Dispatch
  nextTid : Nat

/-- Pointwise update of the buffer map: `message_buffers[s] = v` (or the
effect of `.append` at the key `s`). -/
def setBuf (f : SenderId → List String) (s : SenderId) (v : List String) :
    SenderId → List String :=
  fun k => if k = s then v else f k

/-- Dictionary lookup: `processing_tasks.get(s)` / `s in processing_tasks`. -/
def lookupTask : List (SenderId × Nat) → SenderId → Option Nat
  | [], _ => none
  | (k, v) :: rest, s => if k = s then some v else lookupTask rest s

/-- `del processing_tasks[s]` guarded by `if s in processing_tasks`
(main.py lines 90-91 and 119-120): removing the key is a no-op when absent. -/
def removeTask (ts : List (SenderId × Nat)) (s : SenderId) : List (SenderId × Nat) :=
  ts.filter (fun p => decide (p.1 ≠ s))

/-- Remove a task id from a scheduler list. -/
def removeTid (l : List (Nat × SenderId)) (tid : Nat) : List (Nat × SenderId) :=
  l.filter (fun p => decide (p.1 ≠ tid))

/-- Response body returned when the message opened a new window
(main.py lines 201-204). -/
def firstOfWindowMsg : String := "Message received and being aggregated"

/-- Response body returned when a window already existed
(main.py lines 205-210). -/
def joinedWindowMsg : String := "Message added to existing aggregation window"

/-- The buffer/task atomic segment of `webhook_handler` (main.py lines
184-210): append the (already transcribed) body to the sender's buffer; if no
task is registered for the sender, create one (it starts sleeping) and record
it, answering with the first-of-window acknowledgment, otherwise leave the
task map untouched and acknowledge joining the existing window. -/
def webhook_accept (st : SysState) (sender body : String) : SysState × String :=
  let st1 := { st with buffers := setBuf st.buffers sender (st.buffers sender ++ [body]) }
  match lookupTask st.tasks sender with
  | none =>
      ({ st1 with
          tasks := (sender, st.nextTid) :: st1.tasks
          sleeping := (st.nextTid, sender) :: st1.sleeping
          nextTid := st.nextTid + 1 }, firstOfWindowMsg)
  | some _ => (st1, joinedWindowMsg)

/-- `sender_id.split("@")[0]` (main.py line 94): the prefix of the sender id
before the first "@" — the whole id when no "@" occurs, exactly as Python's
`split` returns the whole string as element 0 when the separator is absent. -/
def plainId (s : SenderId) : String := String.mk (s.data.takeWhile (fun c => c ≠ '@'))

/-- The segment of `process_aggregated_messages` that runs when the
`asyncio.sleep(WAIT_TIME)` of task `tid` (registered for sender `s`) returns
(main.py lines 78-99): read the sender's buffer; if it is empty, return
without touching anything; otherwise join the texts with a single space,
clear the buffer, delete the sender's entry from `processing_tasks` if
present, and call `main(phone_number, combined_message)` — recorded in the
`dispatches` trace, with the task now suspended in `awaitingAgent`. -/
def process_aggregated_wake (st : SysState) (tid : Nat) (s : SenderId) : SysState :=
  let st0 := { st with sleeping := removeTid st.sleeping tid }
  let messages := st.buffers s
  if messages = [] then st0
  else
    { st0 with
        buffers := setBuf st0.buffers s []
        tasks := removeTask st0.tasks s
        dispatches := st0.dispatches ++ [⟨s, plainId s, String.intercalate " " messages⟩]
        awaitingAgent := (tid, s) :: st0.awaitingAgent }

/-- The resumption of `process_aggregated_messages` after `await main(...)`
returns (main.py lines 101-121).  On success the task just finishes.  On an
exception the `except` block clears the sender's buffer, deletes the sender's
`processing_tasks` entry if present, and re-raises — into the detached task,
whose exception no ingress caller ever awaits. -/
def process_aggregated_finish (st : SysState) (tid : Nat) (s : SenderId)
    (ok : Bool) : SysState :=
  let st0 := { st with awaitingAgent := removeTid st.awaitingAgent tid }
  if ok then st0
  else { st0 with buffers := setBuf st0.buffers s [], tasks := removeTask st0.tasks s }

/-- Atomic segments the event loop can schedule. -/
inductive Event
  | arrive (sender body : String)
  | wake (tid : Nat)
  | agentDone (tid : Nat) (ok : Bool)

/-- One scheduler step: run the designated atomic segment.  A `wake` or
`agentDone` for a task id that is not suspended at that point is a no-op. -/
def step (st : SysState) : Event → SysState
  | .arrive s b => (webhook_accept st s b).1
  | .wake tid =>
      match st.sleeping.find? (fun p => decide (p.1 = tid)) with
      | some p => process_aggregated_wake st tid p.2
      | none => st
  | .agentDone tid ok =>
      match st.awaitingAgent.find? (fun p => decide (p.1 = tid)) with
      | some p => process_aggregated_finish st tid p.2 ok
      | none => st

/-- Replay a sequence of atomic segments. -/
def run (st : SysState) (evts : List Event) : SysState :=
  evts.foldl step st

/-- The state of the freshly started process: empty `defaultdict`, empty
`processing_tasks`, no tasks scheduled. -/
def initState : SysState :=
  { buffers := fun _ => []
    tasks := []
    sleeping := []
    awaitingAgent := []
    dispatches := []
    nextTid := 0 }

/-- States the running process can reach, under any interleaving. -/
inductive Reachable : SysState → Prop
  | init : Reachable initState
  | next (st : SysState) (e : Event) : Reachable st → Reachable (step st e)

@[simp] theorem run_nil (st : SysState) : run st [] = st := rfl

@[simp] theorem run_cons (st : SysState) (e : Event) (evts : List Event) :
    run st (e :: evts) = run (step st e) evts := rfl

@[simp] theorem setBuf_same (f : SenderId → List String) (s : SenderId)
    (v : List String) : setBuf f s v s = v := by
  simp [setBuf]

theorem setBuf_other (f : SenderId → List String) (s k : SenderId)
    (v : List String) (h : k ≠ s) : setBuf f s v k = f k := by
  simp [setBuf, h]

@[simp] theorem setBuf_setBuf (f : SenderId → List String) (s : SenderId)
    (u v : List String) : setBuf (setBuf f s u) s v = setBuf f s v := by
  funext k
  by_cases hk : k = s <;> simp [setBuf, hk]

theorem setBuf_self_eq (f : SenderId → List String) (s : SenderId) :
    setBuf f s (f s) = f := by
  funext k
  by_cases hk : k = s <;> simp [setBuf, hk]

theorem lookupTask_none_iff (ts : List (SenderId × Nat)) (s : SenderId) :
    lookupTask ts s = none ↔ s ∉ ts.map Prod.fst := by
  induction ts with
  | nil => simp [lookupTask]
  | cons p rest ih =>
      by_cases hp : p.1 = s
      · simp [lookupTask, hp]
      · simp [lookupTask, hp, ih, Ne.symm hp]

theorem lookupTask_remove_self (ts : List (SenderId × Nat)) (s : SenderId) :
    lookupTask (removeTask ts s) s = none := by
  induction ts with
  | nil => simp [removeTask, lookupTask]
  | cons p rest ih =>
      by_cases hp : p.1 = s
      · simpa [removeTask, hp] using ih
      · simpa [removeTask, lookupTask, hp] using ih

theorem lookupTask_remove_other (ts : List (SenderId × Nat)) (s k : SenderId)
    (h : k ≠ s) : lookupTask (removeTask ts s) k = lookupTask ts k := by
  induction ts with
  | nil => simp [removeTask, lookupTask]
  | cons p rest ih =>
      by_cases hp : p.1 = s
      · have hrem : removeTask (p :: rest) s = removeTask rest s := by
          simp [removeTask, hp]
        have hpk : p.1 ≠ k := by rw [hp]; exact Ne.symm h
        rw [hrem, ih]
        simp [lookupTask, hpk]
      · have hrem : removeTask (p :: rest) s = p :: removeTask rest s := by
          simp [removeTask, hp]
        rw [hrem]
        by_cases hk : p.1 = k
        · simp [lookupTask, hk]
        · simp [lookupTask, hk, ih]

theorem nodup_keys_removeTask (ts : List (SenderId × Nat)) (s : SenderId)
    (h : (ts.map Prod.fst).Nodup) : ((removeTask ts s).map Prod.fst).Nodup := by
  refine List.Nodup.sublist (List.Sublist.map Prod.fst ?_) h
  exact List.filter_sublist ts

/-- The `processing_tasks` dict holds at most one entry per sender id. -/
def TasksNodup (st : SysState) : Prop := (st.tasks.map Prod.fst).Nodup

/-- A registered window handle always guards a non-empty buffer: every code
path that empties a sender's buffer also deletes that sender's
`processing_tasks` entry in the same atomic segment. -/
def BufferTaskInv (st : SysState) : Prop :=
  ∀ s tid, lookupTask st.tasks s = some tid → st.buffers s ≠ []

theorem invariants_step (st : SysState) (e : Event)
    (h : TasksNodup st ∧ BufferTaskInv st) :
    TasksNodup (step st e) ∧ BufferTaskInv (step st e) := by
  obtain ⟨hnd, hbt⟩ := h
  cases e with
  | arrive s b =>
      cases hl : lookupTask st.tasks s with
      | none =>
          simp only [step, webhook_accept, hl]
          constructor
          · refine List.Nodup.cons ?_ hnd
            exact (lookupTask_none_iff st.tasks s).mp hl
          · intro k tid hk
            have hk' : lookupTask ((s, st.nextTid) :: st.tasks) k = some tid := hk
            show setBuf st.buffers s (st.buffers s ++ [b]) k ≠ []
            by_cases hks : k = s
            · subst hks
              simp [setBuf]
            · rw [setBuf_other _ _ _ _ hks]
              have hsk : ¬s = k := fun hh => hks hh.symm
              rw [show lookupTask ((s, st.nextTid) :: st.tasks) k
                    = lookupTask st.tasks k by simp [lookupTask, hsk]] at hk'
              exact hbt k tid hk'
      | some tid0 =>
          simp only [step, webhook_accept, hl]
          refine ⟨hnd, ?_⟩
          intro k tid hk
          have hk' : lookupTask st.tasks k = some tid := hk
          show setBuf st.buffers s (st.buffers s ++ [b]) k ≠ []
          by_cases hks : k = s
          · subst hks
            simp [setBuf]
          · rw [setBuf_other _ _ _ _ hks]
            exact hbt k tid hk'
  | wake tid =>
      cases hf : st.sleeping.find? (fun p => decide (p.1 = tid)) with
      | none => simpa [step, hf] using ⟨hnd, hbt⟩
      | some p =>
          simp only [step, hf]
          simp only [process_aggregated_wake]
          by_cases hemp : st.buffers p.2 = []
          · simpa [hemp] using ⟨hnd, hbt⟩
          · rw [if_neg hemp]
            constructor
            · exact nodup_keys_removeTask st.tasks p.2 hnd
            · intro k tid' hk
              have hk' : lookupTask (removeTask st.tasks p.2) k = some tid' := hk
              show setBuf st.buffers p.2 [] k ≠ []
              by_cases hks : k = p.2
              · subst hks
                rw [lookupTask_remove_self] at hk'
                exact absurd hk' (by simp)
              · rw [lookupTask_remove_other _ _ _ hks] at hk'
                rw [setBuf_other _ _ _ _ hks]
                exact hbt k tid' hk'
  | agentDone tid ok =>
      cases hf : st.awaitingAgent.find? (fun p => decide (p.1 = tid)) with
      | none => simpa [step, hf] using ⟨hnd, hbt⟩
      | some p =>
          simp only [step, hf]
          simp only [process_aggregated_finish]
          cases ok with
          | true => simpa using ⟨hnd, hbt⟩
          | false =>
              rw [if_neg (by simp)]
              constructor
              · exact nodup_keys_removeTask st.tasks p.2 hnd
              · intro k tid' hk
                have hk' : lookupTask (removeTask st.tasks p.2) k = some tid' := hk
                show setBuf st.buffers p.2 [] k ≠ []
                by_cases hks : k = p.2
                · subst hks
                  rw [lookupTask_remove_self] at hk'
                  exact absurd hk' (by simp)
                · rw [lookupTask_remove_other _ _ _ hks] at hk'
                  rw [setBuf_other _ _ _ _ hks]
                  exact hbt k tid' hk'

/-- Both dict invariants hold in every state the process can reach. -/
theorem reachable_invariants (st : SysState) (h : Reachable st) :
    TasksNodup st ∧ BufferTaskInv st := by
  induction h with
  | init =>
      constructor
      · simp [TasksNodup, initState]
      · intro s tid hl
        simp [initState, lookupTask] at hl
  | next st e _ ih => exact invariants_step st e ih

@[simp] theorem run_append (st : SysState) (l1 l2 : List Event) :
    run st (l1 ++ l2) = run (run st l1) l2 := by
  simp [run, List.foldl_append]

theorem step_arrive_existing (st : SysState) (s b : String) (tid : Nat)
    (h : lookupTask st.tasks s = some tid) :
    step st (Event.arrive s b) =
      { st with buffers := setBuf st.buffers s (st.buffers s ++ [b]) } := by
  simp [step, webhook_accept, h]

/-- While a window handle exists for a sender, any burst of further arrivals
from that sender only grows the buffer: the task map, scheduled tasks and
dispatch trace are untouched. -/
theorem run_arrive_existing (ms : List String) (st : SysState) (s : SenderId)
    (tid : Nat) (h : lookupTask st.tasks s = some tid) :
    run st (ms.map (Event.arrive s)) =
      { st with buffers := setBuf st.buffers s (st.buffers s ++ ms) } := by
  induction ms generalizing st with
  | nil =>
      simp [setBuf_self_eq]
  | cons m rest ih =>
      rw [List.map_cons, run_cons, step_arrive_existing st s m tid h]
      rw [ih { st with buffers := setBuf st.buffers s (st.buffers s ++ [m]) } h]
      simp [setBuf_setBuf, setBuf_same, List.append_assoc]

/-- C1: for every burst of messages `m :: ms` from one sender that all arrive
within the window opened by the first of them (in the event-loop model: all
the arrival segments execute before the window task's sleep returns), from a
state where the sender is idle (empty buffer, no registered task), exactly
one dispatch for that sender is appended to the trace, its text is the
space-join of the bodies in arrival order, and its addressee is the plain
identifier; the sender's buffer is empty and its handle gone afterwards. -/
theorem C1_coalescing (st : SysState) (s : SenderId) (m : String)
    (ms : List String) (hb : st.buffers s = [])
    (ht : lookupTask st.tasks s = none) :
    (run st (Event.arrive s m :: ms.map (Event.arrive s)
        ++ [Event.wake st.nextTid])).dispatches
      = st.dispatches ++ [⟨s, plainId s, String.intercalate " " (m :: ms)⟩]
    ∧ (run st (Event.arrive s m :: ms.map (Event.arrive s)
        ++ [Event.wake st.nextTid])).buffers s = []
    ∧ lookupTask (run st (Event.arrive s m :: ms.map (Event.arrive s)
        ++ [Event.wake st.nextTid])).tasks s = none := by
  have h1 : step st (Event.arrive s m) =
      { st with
          buffers := setBuf st.buffers s (st.buffers s ++ [m])
          tasks := (s, st.nextTid) :: st.tasks
          sleeping := (st.nextTid, s) :: st.sleeping
          nextTid := st.nextTid + 1 } := by
    simp [step, webhook_accept, ht]
  have h2 : run (step st (Event.arrive s m)) (ms.map (Event.arrive s)) =
      { st with
          buffers := setBuf st.buffers s (m :: ms)
          tasks := (s, st.nextTid) :: st.tasks
          sleeping := (st.nextTid, s) :: st.sleeping
          nextTid := st.nextTid + 1 } := by
    rw [h1]
    rw [run_arrive_existing ms _ s st.nextTid (by simp [lookupTask])]
    simp [setBuf_setBuf, setBuf_same, hb]
  have hrun : run st (Event.arrive s m :: ms.map (Event.arrive s)
        ++ [Event.wake st.nextTid])
      = step { st with
          buffers := setBuf st.buffers s (m :: ms)
          tasks := (s, st.nextTid) :: st.tasks
          sleeping := (st.nextTid, s) :: st.sleeping
          nextTid := st.nextTid + 1 } (Event.wake st.nextTid) := by
    have h2' : run st (Event.arrive s m :: ms.map (Event.arrive s)) =
        { st with
            buffers := setBuf st.buffers s (m :: ms)
            tasks := (s, st.nextTid) :: st.tasks
            sleeping := (st.nextTid, s) :: st.sleeping
            nextTid := st.nextTid + 1 } := by
      rw [run_cons]
      exact h2
    rw [run_append, h2']
    rfl
  have hfind : (((st.nextTid, s) :: st.sleeping).find?
      (fun p => decide (p.1 = st.nextTid))) = some (st.nextTid, s) := by
    simp
  refine ⟨?_, ?_, ?_⟩ <;>
    rw [hrun] <;>
    simp [step, hfind, process_aggregated_wake, setBuf_same,
      lookupTask_remove_self]

/-- Witness for C1, Scenario A: sender "5511999@c.us" sends "Oi" then
"tudo bem?" inside one window; the sole dispatch carries "Oi tudo bem?" to
the bare phone number "5511999". -/
theorem C1_coalescing_witness :
    (initState.buffers "5511999@c.us" = []
      ∧ lookupTask initState.tasks "5511999@c.us" = none)
    ∧ (run initState (Event.arrive "5511999@c.us" "Oi"
        :: ["tudo bem?"].map (Event.arrive "5511999@c.us")
        ++ [Event.wake initState.nextTid])).dispatches
      = [⟨"5511999@c.us", "5511999", "Oi tudo bem?"⟩] := by
  refine ⟨⟨rfl, rfl⟩, ?_⟩
  have h := (C1_coalescing initState "5511999@c.us" "Oi" ["tudo bem?"] rfl rfl).1
  rw [h]
  decide

/-- C2: in every reachable state the `processing_tasks` dict has at most one
entry per sender id (its key list is duplicate-free), and the handler segment
of a message arriving while a handle exists for its sender only appends to
that sender's buffer: the task dict, the scheduled sleeps (hence the existing
window's deadline) and the fresh-task counter are unchanged, no new
delayed-dispatch task is created, and the caller is answered with the
joined-existing-window acknowledgment.  Arrivals are atomic segments of the
event loop, so this holds under any concurrent interleaving. -/
theorem C2_single_window (st : SysState) (h : Reachable st) :
    (st.tasks.map Prod.fst).Nodup
    ∧ ∀ s b tid, lookupTask st.tasks s = some tid →
        (webhook_accept st s b).1.tasks = st.tasks
        ∧ (webhook_accept st s b).1.sleeping = st.sleeping
        ∧ (webhook_accept st s b).1.nextTid = st.nextTid
        ∧ (webhook_accept st s b).1.buffers s = st.buffers s ++ [b]
        ∧ (webhook_accept st s b).2 = joinedWindowMsg := by
  refine ⟨(reachable_invariants st h).1, ?_⟩
  intro s b tid hl
  simp [webhook_accept, hl, setBuf_same]

/-- Witness for C2 at the reachable state where "5511999@c.us" has sent "Oi"
and holds window handle 0: a second arrival appends without a new task. -/
theorem C2_single_window_witness :
    Reachable (step initState (Event.arrive "5511999@c.us" "Oi"))
    ∧ ((step initState (Event.arrive "5511999@c.us" "Oi")).tasks.map Prod.fst).Nodup
    ∧ (webhook_accept (step initState (Event.arrive "5511999@c.us" "Oi"))
        "5511999@c.us" "tudo bem?").1.tasks
        = (step initState (Event.arrive "5511999@c.us" "Oi")).tasks
    ∧ (webhook_accept (step initState (Event.arrive "5511999@c.us" "Oi"))
        "5511999@c.us" "tudo bem?").2 = joinedWindowMsg := by
  have hr : Reachable (step initState (Event.arrive "5511999@c.us" "Oi")) :=
    Reachable.next initState (Event.arrive "5511999@c.us" "Oi") Reachable.init
  have h := C2_single_window _ hr
  have h2 := h.2 "5511999@c.us" "tudo bem?" 0 (by decide)
  exact ⟨hr, h.1, h2.1, h2.2.2.2.2⟩

/-- C3: at every reachable state, when the window task for a sender fires
with a non-empty buffer, the atomic wake segment snapshots and clears the
buffer, removes the sender's handle, and hands the snapshot (space-joined,
addressed to the plain id) to the dispatcher; when it fires with an empty
buffer it performs no dispatch, and no handle for that sender exists either
before or after (reachability guarantees a registered handle always guards a
non-empty buffer), so the handle is gone exactly when the window's dispatch
is. -/
theorem C3_handle_lifecycle (st : SysState) (tid : Nat) (s : SenderId)
    (h : Reachable st) :
    (st.buffers s ≠ [] →
        (process_aggregated_wake st tid s).buffers s = []
        ∧ lookupTask (process_aggregated_wake st tid s).tasks s = none
        ∧ (process_aggregated_wake st tid s).dispatches
            = st.dispatches ++ [⟨s, plainId s, String.intercalate " " (st.buffers s)⟩]
        ∧ (tid, s) ∈ (process_aggregated_wake st tid s).awaitingAgent)
    ∧ (st.buffers s = [] →
        (process_aggregated_wake st tid s).dispatches = st.dispatches
        ∧ (process_aggregated_wake st tid s).tasks = st.tasks
        ∧ lookupTask st.tasks s = none
        ∧ lookupTask (process_aggregated_wake st tid s).tasks s = none) := by
  constructor
  · intro hne
    simp [process_aggregated_wake, hne, setBuf_same, lookupTask_remove_self]
  · intro hemp
    have htasks : (process_aggregated_wake st tid s).tasks = st.tasks := by
      simp [process_aggregated_wake, hemp]
    have hnone : lookupTask st.tasks s = none := by
      cases hl : lookupTask st.tasks s with
      | none => rfl
      | some tid0 => exact absurd hemp ((reachable_invariants st h).2 s tid0 hl)
    refine ⟨?_, htasks, hnone, ?_⟩
    · simp [process_aggregated_wake, hemp]
    · rw [htasks]
      exact hnone

/-- Witness for C3 at the reachable state where "5511999@c.us" has sent "Oi"
and its window task 0 fires. -/
theorem C3_handle_lifecycle_witness :
    (Reachable (step initState (Event.arrive "5511999@c.us" "Oi"))
      ∧ (step initState (Event.arrive "5511999@c.us" "Oi")).buffers "5511999@c.us" ≠ [])
    ∧ (process_aggregated_wake (step initState (Event.arrive "5511999@c.us" "Oi"))
        0 "5511999@c.us").buffers "5511999@c.us" = []
    ∧ lookupTask (process_aggregated_wake
        (step initState (Event.arrive "5511999@c.us" "Oi"))
        0 "5511999@c.us").tasks "5511999@c.us" = none
    ∧ (process_aggregated_wake (step initState (Event.arrive "5511999@c.us" "Oi"))
        0 "5511999@c.us").dispatches
        = (step initState (Event.arrive "5511999@c.us" "Oi")).dispatches
          ++ [⟨"5511999@c.us", plainId "5511999@c.us",
              String.intercalate " "
                ((step initState (Event.arrive "5511999@c.us" "Oi")).buffers
                  "5511999@c.us")⟩] := by
  have hr : Reachable (step initState (Event.arrive "5511999@c.us" "Oi")) :=
    Reachable.next initState (Event.arrive "5511999@c.us" "Oi") Reachable.init
  have hne : (step initState (Event.arrive "5511999@c.us" "Oi")).buffers
      "5511999@c.us" ≠ [] := by decide
  have h := (C3_handle_lifecycle _ 0 "5511999@c.us" hr).1 hne
  exact ⟨⟨hr, hne⟩, h.1, h.2.1, h.2.2.1⟩

/-- C4: when the agent call of a dispatch raises, the `except` block of
`process_aggregated_messages` clears the sender's buffer, removes the
sender's handle whatever it is, and performs no further dispatch; the
re-raised exception lives only inside the detached task (the finish segment
has no response channel back to any HTTP caller, whose request already ended
with the "aggregating" acknowledgment); and the sender's next message is
accepted as the first of a fresh window whose buffer holds exactly that
message — no stale content. -/
theorem C4_failure_recovery (st : SysState) (tid : Nat) (s : SenderId)
    (b : String) :
    (process_aggregated_finish st tid s false).buffers s = []
    ∧ lookupTask (process_aggregated_finish st tid s false).tasks s = none
    ∧ (process_aggregated_finish st tid s false).dispatches = st.dispatches
    ∧ (webhook_accept (process_aggregated_finish st tid s false) s b).1.buffers s = [b]
    ∧ lookupTask (webhook_accept
        (process_aggregated_finish st tid s false) s b).1.tasks s = some st.nextTid
    ∧ (webhook_accept (process_aggregated_finish st tid s false) s b).2
        = firstOfWindowMsg := by
  simp [process_aggregated_finish, webhook_accept, lookupTask_remove_self,
    setBuf_same, lookupTask]

/-- C10: the wake segment clears the buffer and removes the handle before
`await main(...)` starts, so for the whole in-flight agent call (task parked
in `awaitingAgent`) the sender is idle, and a message arriving during the
call immediately opens a fresh window that coexists with the still-running
dispatch. -/
theorem C10_idle_during_dispatch (st : SysState) (tid : Nat) (s : SenderId)
    (b : String) (h : st.buffers s ≠ []) :
    (process_aggregated_wake st tid s).buffers s = []
    ∧ lookupTask (process_aggregated_wake st tid s).tasks s = none
    ∧ (tid, s) ∈ (process_aggregated_wake st tid s).awaitingAgent
    ∧ (webhook_accept (process_aggregated_wake st tid s) s b).1.buffers s = [b]
    ∧ lookupTask (webhook_accept
        (process_aggregated_wake st tid s) s b).1.tasks s = some st.nextTid
    ∧ (tid, s) ∈ (webhook_accept
        (process_aggregated_wake st tid s) s b).1.awaitingAgent
    ∧ (webhook_accept (process_aggregated_wake st tid s) s b).2
        = firstOfWindowMsg := by
  simp [process_aggregated_wake, h, webhook_accept, lookupTask_remove_self,
    setBuf_same, lookupTask]

/-- Witness for C10: sender "5511999@c.us" has "Oi" buffered, its window
fires, and "e ai?" arrives while the agent call is still running. -/
theorem C10_idle_during_dispatch_witness :
    (step initState (Event.arrive "5511999@c.us" "Oi")).buffers "5511999@c.us" ≠ []
    ∧ (webhook_accept (process_aggregated_wake
        (step initState (Event.arrive "5511999@c.us" "Oi")) 0 "5511999@c.us")
        "5511999@c.us" "e ai?").1.buffers "5511999@c.us" = ["e ai?"]
    ∧ (0, "5511999@c.us") ∈ (webhook_accept (process_aggregated_wake
        (step initState (Event.arrive "5511999@c.us" "Oi")) 0 "5511999@c.us")
        "5511999@c.us" "e ai?").1.awaitingAgent := by
  have hne : (step initState (Event.arrive "5511999@c.us" "Oi")).buffers
      "5511999@c.us" ≠ [] := by decide
  have h := C10_idle_during_dispatch
    (step initState (Event.arrive "5511999@c.us" "Oi")) 0 "5511999@c.us" "e ai?" hne
  exact ⟨hne, h.2.2.2.1, h.2.2.2.2.2.1⟩

/-- A raw `data["sender"]` object: subscripted fields may be absent. -/
structure SenderRaw where
  id : Option String
  isUser : Option Bool
deriving DecidableEq, Repr

/-- A raw webhook JSON payload (`data: Dict[str, Any]`), restricted to the
keys the handler touches; an absent key is `none`. -/
structure RawPayload where
  event : Option String
  session : Option String
  body : Option String
  type : Option String
  isNewMsg : Option Bool
  sender : Option SenderRaw
  isGroupMsg : Option Bool
deriving DecidableEq, Repr

/-- The Python exceptions the handler manipulates. -/
inductive PyExc
  | keyError (k : String)
  | httpExc (code : Nat) (detail : String)
deriving DecidableEq, Repr

/-- The single-quote character, as Python `str(KeyError)` prints around the
missing key. -/
def sq : String := String.mk ['\'']

/-- Python `str(e)`: a `KeyError` prints as the quoted key; a
Starlette/FastAPI `HTTPException` prints as "status_code: detail". -/
def pyStr : PyExc → String
  | .keyError k => sq ++ k ++ sq
  | .httpExc c d => toString c ++ ": " ++ d

/-- The parsed `WebhookMessage` pydantic model (main.py lines 35-44). -/
structure WebhookMessage where
  event : String
  session : String
  body : String
  type : String
  isNewMsg : Bool
  senderId : String
  senderIsUser : Bool
  isGroupMsg : Bool
deriving DecidableEq, Repr

/-- The acceptance filter (main.py lines 145-150): `event == "onmessage"`,
`isNewMsg == True`, `type` in the allow-list — `.get` accesses never raise. -/
def matchesCriteria (d : RawPayload) : Bool :=
  d.event == some "onmessage" && d.isNewMsg == some true
    && (d.type == some "chat" || d.type == some "list_response"
        || d.type == some "ptt")

/-- The `WebhookMessage(...)` construction (main.py lines 172-182): each
`data[...]` subscript raises `KeyError` on an absent key, in Python's
argument evaluation order. -/
def parseMessage (d : RawPayload) (text : String) : Except PyExc WebhookMessage :=
  match d.event with
  | none => .error (.keyError "event")
  | some ev =>
  match d.session with
  | none => .error (.keyError "session")
  | some sess =>
  match d.type with
  | none => .error (.keyError "type")
  | some ty =>
  match d.isNewMsg with
  | none => .error (.keyError "isNewMsg")
  | some inm =>
  match d.sender with
  | none => .error (.keyError "sender")
  | some sr =>
  match sr.id with
  | none => .error (.keyError "id")
  | some sid =>
  match sr.isUser with
  | none => .error (.keyError "isUser")
  | some isu =>
  match d.isGroupMsg with
  | none => .error (.keyError "isGroupMsg")
  | some grp => .ok ⟨ev, sess, text, ty, inm, sid, isu, grp⟩

/-- The HTTP outcome of one webhook request: a 200 JSON body
`{"status": ..., "message": ...}` or an `HTTPException`. -/
inductive HandlerResult
  | response (status message : String)
  | httpError (code : Nat) (detail : String)
deriving DecidableEq, Repr

/-- Whether the outcome is an `HTTPException`. -/
def HandlerResult.isError : HandlerResult → Bool
  | .httpError _ _ => true
  | .response _ _ => false

/-- The two nested `except` blocks (main.py lines 212-216 and 225-229): any
exception `e` escaping the accepted-message block is re-raised as
`HTTPException(422, "Error parsing message: " + str(e))`; that
`HTTPException` is itself an `Exception`, so the outer blanket handler
catches it too and re-raises `HTTPException(500, "Error processing webhook: "
+ str(e))` — the 422 never reaches the client. -/
def wrapHandlerExc (e : PyExc) : HandlerResult :=
  .httpError 500 ("Error processing webhook: "
    ++ pyStr (.httpExc 422 ("Error parsing message: " ++ pyStr e)))

/-- The whole `webhook_handler` (main.py lines 135-229) for one request, as
observed at its end or at its transcription suspension's resumption:
filtering, optional transcription of a `ptt` body (the oracle `transcribe`
stands for `transcribe_base64_audio`; its calls are logged in the third
component), pydantic parsing, then the buffer/task segment.  Every failure
path leaves the state untouched and yields the doubly-wrapped 500. -/
def webhook_handler (d : RawPayload)
    (transcribe : String → Except String String) (st : SysState) :
    SysState × HandlerResult × List String :=
  if matchesCriteria d then
    let body0 := d.body.getD ""
    let tr : Except PyExc String × List String :=
      if d.type == some "ptt" then
        match transcribe body0 with
        | .ok t => (.ok t, [body0])
        | .error e =>
            (.error (.httpExc 422 ("Error processing audio: " ++ e)), [body0])
      else (.ok body0, [])
    match tr with
    | (.error e, calls) => (st, wrapHandlerExc e, calls)
    | (.ok text, calls) =>
        match parseMessage d text with
        | .error e => (st, wrapHandlerExc e, calls)
        | .ok msg =>
            let r := webhook_accept st msg.senderId msg.body
            (r.1, .response "aggregating" r.2, calls)
  else
    (st, .response "received"
      "Message received but not processed (not matching criteria)", [])

/-- An accepted chat payload whose `"session"` key is absent. -/
def payloadNoSession : RawPayload :=
  { event := some "onmessage", session := none, body := some "hi"
    type := some "chat", isNewMsg := some true
    sender := some ⟨some "a@c.us", some true⟩, isGroupMsg := some false }

/-- A `ptt` payload whose audio the transcription collaborator rejects. -/
def payloadBadAudio : RawPayload :=
  { event := some "onmessage", session := some "sess", body := some "AAAA"
    type := some "ptt", isNewMsg := some true
    sender := some ⟨some "a@c.us", some true⟩, isGroupMsg := some false }

/-- C5, evaluated: a payload missing a required field, and a `ptt` payload
whose transcription fails, never partially buffer (the state is returned
untouched) — but the response the client sees is HTTP 500, not the 422 the
code's own `raise HTTPException(status_code=422, ...)` statements intend:
the outer blanket `except Exception` catches the in-flight
`HTTPException(422)` and re-raises it wrapped as a 500. -/
theorem C5_rejected_as_500 :
    webhook_handler payloadNoSession (fun _ => Except.ok "ola") initState
      = (initState,
          HandlerResult.httpError 500
            ("Error processing webhook: 422: Error parsing message: "
              ++ sq ++ "session" ++ sq), [])
    ∧ webhook_handler payloadBadAudio (fun _ => Except.error "decode failed")
        initState
      = (initState,
          HandlerResult.httpError 500
            "Error processing webhook: 422: Error parsing message: 422: Error processing audio: decode failed",
          ["AAAA"]) := by
  constructor <;> rfl

/-- C6: a payload whose event is not "onmessage", or whose isNewMsg is not
True, or whose type is outside {chat, list_response, ptt}, is answered with
the "received"/not-processed body, no transcription is attempted, and the
state — buffers and window map included — is returned unchanged. -/
theorem C6_filter_rejects (d : RawPayload)
    (transcribe : String → Except String String) (st : SysState)
    (h : d.event ≠ some "onmessage" ∨ d.isNewMsg ≠ some true
      ∨ (d.type ≠ some "chat" ∧ d.type ≠ some "list_response"
          ∧ d.type ≠ some "ptt")) :
    webhook_handler d transcribe st
      = (st, HandlerResult.response "received"
          "Message received but not processed (not matching criteria)", []) := by
  have hc : matchesCriteria d = false := by
    unfold matchesCriteria
    rcases h with h | h | ⟨h1, h2, h3⟩
    · simp [h]
    · simp [h]
    · simp [h1, h2, h3]
  simp [webhook_handler, hc]

/-- Witness for C6, Scenario C: a payload with type "image" is skipped and
the state is untouched. -/
theorem C6_filter_rejects_witness :
    ((⟨some "onmessage", some "sess", some "img64", some "image", some true,
        some ⟨some "a@c.us", some true⟩, some false⟩ : RawPayload).event
          ≠ some "onmessage"
      ∨ (⟨some "onmessage", some "sess", some "img64", some "image", some true,
          some ⟨some "a@c.us", some true⟩, some false⟩ : RawPayload).isNewMsg
          ≠ some true
      ∨ ((⟨some "onmessage", some "sess", some "img64", some "image", some true,
            some ⟨some "a@c.us", some true⟩, some false⟩ : RawPayload).type
            ≠ some "chat"
          ∧ (⟨some "onmessage", some "sess", some "img64", some "image",
              some true, some ⟨some "a@c.us", some true⟩,
              some false⟩ : RawPayload).type ≠ some "list_response"
          ∧ (⟨some "onmessage", some "sess", some "img64", some "image",
              some true, some ⟨some "a@c.us", some true⟩,
              some false⟩ : RawPayload).type ≠ some "ptt"))
    ∧ webhook_handler
        (⟨some "onmessage", some "sess", some "img64", some "image", some true,
          some ⟨some "a@c.us", some true⟩, some false⟩ : RawPayload)
        (fun _ => Except.ok "ola") initState
      = (initState, HandlerResult.response "received"
          "Message received but not processed (not matching criteria)", []) := by
  refine ⟨Or.inr (Or.inr ⟨by decide, by decide, by decide⟩), ?_⟩
  exact C6_filter_rejects _ (fun _ => Except.ok "ola") initState
    (Or.inr (Or.inr ⟨by decide, by decide, by decide⟩))

/-- C9: for a `ptt` payload that passes the filter but is missing its
`"session"` key, the transcription collaborator is called anyway — the
handler transcribes before validating required fields — and the request is
then rejected with an `HTTPException`, leaving buffers and the window map
exactly as they were. -/
theorem C9_transcribe_before_validation (st : SysState)
    (transcribe : String → Except String String) (d : RawPayload)
    (he : d.event = some "onmessage") (hn : d.isNewMsg = some true)
    (ht : d.type = some "ptt") (hs : d.session = none) :
    (webhook_handler d transcribe st).1 = st
    ∧ (webhook_handler d transcribe st).2.2 = [d.body.getD ""]
    ∧ (webhook_handler d transcribe st).2.1.isError = true := by
  have hc : matchesCriteria d = true := by
    simp [matchesCriteria, he, hn, ht]
  cases htr : transcribe (d.body.getD "") with
  | error e =>
      refine ⟨?_, ?_, ?_⟩ <;>
        simp [webhook_handler, hc, ht, htr, HandlerResult.isError, wrapHandlerExc]
  | ok t =>
      refine ⟨?_, ?_, ?_⟩ <;>
        simp [webhook_handler, hc, ht, htr, parseMessage, he, hs,
          HandlerResult.isError, wrapHandlerExc]

/-- Witness for C9: a concrete session-less `ptt` payload with a succeeding
transcription oracle. -/
theorem C9_transcribe_before_validation_witness :
    ((⟨some "onmessage", none, some "AAAA", some "ptt", some true,
        some ⟨some "a@c.us", some true⟩, some false⟩ : RawPayload).event
          = some "onmessage"
      ∧ (⟨some "onmessage", none, some "AAAA", some "ptt", some true,
          some ⟨some "a@c.us", some true⟩, some false⟩ : RawPayload).isNewMsg
          = some true
      ∧ (⟨some "onmessage", none, some "AAAA", some "ptt", some true,
          some ⟨some "a@c.us", some true⟩, some false⟩ : RawPayload).type
          = some "ptt"
      ∧ (⟨some "onmessage", none, some "AAAA", some "ptt", some true,
          some ⟨some "a@c.us", some true⟩, some false⟩ : RawPayload).session
          = none)
    ∧ (webhook_handler
        (⟨some "onmessage", none, some "AAAA", some "ptt", some true,
          some ⟨some "a@c.us", some true⟩, some false⟩ : RawPayload)
        (fun _ => Except.ok "ola") initState).2.2 = ["AAAA"]
    ∧ (webhook_handler
        (⟨some "onmessage", none, some "AAAA", some "ptt", some true,
          some ⟨some "a@c.us", some true⟩, some false⟩ : RawPayload)
        (fun _ => Except.ok "ola") initState).2.1.isError = true := by
  have h := C9_transcribe_before_validation initState (fun _ => Except.ok "ola")
    (⟨some "onmessage", none, some "AAAA", some "ptt", some true,
      some ⟨some "a@c.us", some true⟩, some false⟩ : RawPayload)
    rfl rfl rfl rfl
  exact ⟨⟨rfl, rfl, rfl, rfl⟩, h.2.1, h.2.2⟩

/-- `transcribe_base64_audio` (main.py lines 47-67), with its collaborators
abstracted — `b64decode` is `base64.b64decode`, `groq` is the Whisper
transcription call — and the set of existing temporary files threaded as
ghost state; `tmpName` is the fresh path `NamedTemporaryFile` picks.  On
decode failure no file was ever created and nothing is written or unlinked
(the `finally` block then itself raises `UnboundLocalError`, since
`tmp_file_path` was never assigned, masking the decode error).  On the
success and transcription-failure paths the file is created and the
`finally` block unlinks it before the function returns or the exception
propagates. -/
def transcribe_base64_audio (b64decode : String → Except String String)
    (groq : String → Except String String) (tmpName : String)
    (b64audio : String) (files : List String) :
    Except String String × List String :=
  match b64decode b64audio with
  | .error _ => (.error "UnboundLocalError: tmp_file_path", files)
  | .ok _audio =>
      let files1 := files ++ [tmpName]
      match groq tmpName with
      | .ok text => (.ok text, files1.erase tmpName)
      | .error e => (.error e, files1.erase tmpName)

/-- C7: whatever the decode and transcription collaborators do, the set of
temporary files after `transcribe_base64_audio` equals the set before it —
the scoped temporary resource is released on the success path and the
transcription-failure path, and is never created on the decode-failure
path. -/
theorem C7_tmpfile_released (b64decode groq : String → Except String String)
    (tmpName b64audio : String) (files : List String)
    (h : tmpName ∉ files) :
    (transcribe_base64_audio b64decode groq tmpName b64audio files).2
      = files := by
  unfold transcribe_base64_audio
  cases b64decode b64audio with
  | error e => rfl
  | ok a =>
      cases groq tmpName with
      | ok t => simp [List.erase_append_right _ h]
      | error e => simp [List.erase_append_right _ h]

/-- Witness for C7 on all three paths with a concrete fresh name. -/
theorem C7_tmpfile_released_witness :
    ("/tmp/x.ogg" ∉ (["/tmp/other.ogg"] : List String)
      ∧ (transcribe_base64_audio (fun s => Except.ok s)
          (fun _ => Except.ok "ola") "/tmp/x.ogg" "AAAA"
          ["/tmp/other.ogg"]).2 = ["/tmp/other.ogg"])
    ∧ (transcribe_base64_audio (fun s => Except.ok s)
        (fun _ => Except.error "whisper down") "/tmp/x.ogg" "AAAA"
        ["/tmp/other.ogg"]).2 = ["/tmp/other.ogg"]
    ∧ (transcribe_base64_audio (fun _ => Except.error "bad base64")
        (fun _ => Except.ok "ola") "/tmp/x.ogg" "AAAA"
        ["/tmp/other.ogg"]).2 = ["/tmp/other.ogg"] := by
  have hnm : "/tmp/x.ogg" ∉ (["/tmp/other.ogg"] : List String) := by decide
  refine ⟨⟨hnm, ?_⟩, ?_, ?_⟩
  · exact C7_tmpfile_released (fun s => Except.ok s) (fun _ => Except.ok "ola")
      "/tmp/x.ogg" "AAAA" ["/tmp/other.ogg"] hnm
  · exact C7_tmpfile_released (fun s => Except.ok s)
      (fun _ => Except.error "whisper down") "/tmp/x.ogg" "AAAA"
      ["/tmp/other.ogg"] hnm
  · exact C7_tmpfile_released (fun _ => Except.error "bad base64")
      (fun _ => Except.ok "ola") "/tmp/x.ogg" "AAAA" ["/tmp/other.ogg"] hnm

/-- The content of a LangChain `AIMessage`: a plain string or a list of
answer chunks. -/
inductive MsgContent
  | str (s : String)
  | list (xs : List String)
deriving DecidableEq, Repr

/-- One entry of `message.tool_calls`. -/
structure ToolCall where
  name : String
  args : String
deriving DecidableEq, Repr

/-- An `AIMessage` as `process_chunks` inspects it: its `content` and its
`tool_calls` list (always present on an `AIMessage`; empty is falsy). -/
structure AIMessage where
  content : MsgContent
  tool_calls : List ToolCall
deriving DecidableEq, Repr

/-- The value `chunk[list(chunk.keys())[0]]["messages"]` as far as the
`isinstance(message, AIMessage)` test cares. -/
inductive ChunkVal
  | aiMessage (m : AIMessage)
  | otherValue
deriving DecidableEq, Repr

/-- The `chunk` argument of `process_chunks`: not a dict, a dict whose first
value has no "messages" key, or one that has. -/
inductive Chunk
  | notDict
  | dictNoMessages
  | dictMessages (v : ChunkVal)
deriving DecidableEq, Repr

/-- Observable effects of `process_chunks`: Rich console prints, and the
voice pipeline `gTTS(text=agent_answer, lang="pt-br")` followed by
`send_voice(audio_path, phone_number)` — recorded as the text handed to
synthesis and the identifier the audio is sent to. -/
inductive OutAction
  | printAnswer (s : String)
  | printToolCall (name args : String)
  | sendVoice (text target : String)
deriving DecidableEq, Repr

/-- `process_chunks` (graph_utils.py lines 41-91).  List content prints each
chunk and synthesizes nothing; string content with a non-empty `tool_calls`
prints the first tool call; string content with no tool calls prints the
answer, synthesizes the *agent answer* and sends the audio to
`phone_number`. -/
def process_chunks : Chunk → String → List OutAction
  | .notDict, _ => []
  | .dictNoMessages, _ => []
  | .dictMessages .otherValue, _ => []
  | .dictMessages (.aiMessage m), phone =>
      match m.content with
      | .list xs => xs.map OutAction.printAnswer
      | .str ans =>
          match m.tool_calls with
          | tc :: _ => [.printToolCall tc.name tc.args]
          | [] => [.printAnswer ans, .sendVoice ans phone]

/-- C8 counterexample: the dispatch of combined text "Oi tudo bem?" receives
the direct (no tool call pending) agent answer "Ola, tudo otimo!"; the text
offered to voice synthesis is the agent's reply — no `sendVoice` action
carries the combined text, refuting the claim that the combined text is
synthesized. -/
theorem C8_combined_text_not_synthesized :
    process_chunks
        (Chunk.dictMessages (ChunkVal.aiMessage
          ⟨MsgContent.str "Ola, tudo otimo!", []⟩)) "5511999"
      = [OutAction.printAnswer "Ola, tudo otimo!",
         OutAction.sendVoice "Ola, tudo otimo!" "5511999"]
    ∧ OutAction.sendVoice "Oi tudo bem?" "5511999"
        ∉ process_chunks
            (Chunk.dictMessages (ChunkVal.aiMessage
              ⟨MsgContent.str "Ola, tudo otimo!", []⟩)) "5511999" := by
  exact ⟨rfl, by decide⟩

/-- C8 amended: whenever the agent's reply is a direct answer — a terminal
string with an empty `tool_calls` list — the *reply text* (not the combined
input text) is offered to voice synthesis and the resulting audio is sent to
the phone number the dispatch derived from the sender id. -/
theorem C8_reply_voiced (ans phone : String) :
    process_chunks
        (Chunk.dictMessages (ChunkVal.aiMessage ⟨MsgContent.str ans, []⟩)) phone
      = [OutAction.printAnswer ans, OutAction.sendVoice ans phone] := rfl

end WhatsAppAgg
